import Mathlib

/-!
# Verification of the email validator (src/1_email_validator/email_validator.py)

A shallow embedding of the validator's core: the SMTP handshake probe
(`smtp_verify`), DNS MX resolution (`get_mx_records`), the regex format check
(`validate_email_format`), the per-address orchestrator (`validate_email`),
the batch loop and the summary counts of `main`.

External effects are modelled as data passed in:
* the outcome of the module-level `dns.resolver.resolve(domain, 'MX')` call is
  an `Except DnsError (List MxAnswer)` value supplied by the environment;
* one SMTP conversation (what the server does at connect, HELO, MAIL FROM,
  RCPT TO and QUIT) is an `SmtpSession` value; a command that raises a Python
  exception is an `Except.error` / `some` exception field, a command that
  completes carries the `(code, message)` reply.
Python `try/except` becomes explicit propagation of these exception values to
the handler clauses, exactly following the source's control flow.
-/

/-- The exceptions distinguished by the `except` clauses of `smtp_verify`
(lines 83-88): `smtplib.SMTPServerDisconnected`, `smtplib.SMTPConnectError`,
and any other `Exception` (carrying its `str(e)`). -/
inductive SmtpExc where
  | serverDisconnected
  | connectError
  | otherExc (msg : String)
deriving DecidableEq, Repr

/-- One SMTP conversation as the server plays it: for each command the code
issues, either the exception it raises or the `(code, message)` reply it
completes with.  `smtplib`'s `helo`, `mail` and `rcpt` return the reply pair
without raising on non-2xx codes; `connect` and `quit` either succeed or
raise. -/
structure SmtpSession where
  connectResult : Option SmtpExc
  heloReply : Except SmtpExc (Nat × String)
  mailReply : Except SmtpExc (Nat × String)
  rcptReply : Except SmtpExc (Nat × String)
  quitResult : Option SmtpExc
deriving Repr

/-- The DNS failure modes distinguished by `get_mx_records`' `except` clauses
(lines 50-56): `dns.resolver.NXDOMAIN`, `dns.resolver.NoNameservers`,
`dns.resolver.NoAnswer`, and any other `Exception`. -/
inductive DnsError where
  | nxdomain
  | noNameservers
  | noAnswer
  | otherError (msg : String)
deriving DecidableEq, Repr

/-- One MX record as returned by the resolver: `r.preference` and
`str(r.exchange)` (line 46). -/
structure MxAnswer where
  preference : Nat
  exchange : String
deriving DecidableEq, Repr

/-- The resolver configuration carried by a `dns.resolver.Resolver` object:
its `timeout` and `lifetime` attributes. -/
structure ResolverConfig where
  timeout : Nat
  lifetime : Nat
deriving DecidableEq, Repr

/-- The state built by `EmailValidator.__init__` (lines 20-28): the SMTP
timeout argument, and an instance resolver whose `timeout` and `lifetime`
are both set to 5. -/
structure EmailValidator where
  timeout : Nat
  dns_resolver : ResolverConfig
deriving DecidableEq, Repr

/-- `EmailValidator.__init__(timeout)` (lines 20-28): stores `timeout` and
creates `self.dns_resolver` with `timeout = 5` and `lifetime = 5`. -/
def EmailValidator.init (timeout : Nat := 10) : EmailValidator :=
  { timeout := timeout, dns_resolver := { timeout := 5, lifetime := 5 } }

/-- The message each `except` clause of `smtp_verify` produces (lines 83-88);
the generic clause truncates `str(e)` to its first 50 characters. -/
def smtpExcMessage : SmtpExc → String
  | .serverDisconnected => "сервер разорвал соединение"
  | .connectError => "не удалось подключиться к серверу"
  | .otherExc msg => "ошибка SMTP: " ++ msg.take 50

/-- The body of `smtp_verify`'s `try` block (lines 66-81): connect, HELO,
MAIL FROM (both replies bound but their codes never inspected), RCPT TO
(binding `(code, message)`), then `quit()`, and only then the test
`code == 250 or code == 251`.  An exception raised at any step propagates
out of the block, abandoning any reply already received. -/
def smtpBody (s : SmtpSession) : Except SmtpExc (Bool × String) :=
  match s.connectResult with
  | some e => .error e
  | none =>
    match s.heloReply with
    | .error e => .error e
    | .ok _ =>
      match s.mailReply with
      | .error e => .error e
      | .ok _ =>
        match s.rcptReply with
        | .error e => .error e
        | .ok (code, _message) =>
          match s.quitResult with
          | some e => .error e
          | none =>
            if code = 250 ∨ code = 251 then
              .ok (true, "адрес существует")
            else
              .ok (false, "адрес не найден (код " ++ toString code ++ ")")

/-- `EmailValidator.smtp_verify` (lines 58-88): run the `try` block; an
exception is routed to the first matching `except` clause, each returning
`(False, message)`.  The `session` argument models the network conversation
determined by the probed address, the MX host and `self.timeout`. -/
def smtp_verify (self : EmailValidator) (session : SmtpSession) : Bool × String :=
  match smtpBody session with
  | .ok r => r
  | .error e => (false, smtpExcMessage e)

/-- Python's `str.rstrip('.')`: remove every trailing `'.'` (line 46). -/
def pyRstripDot (s : String) : String :=
  String.mk ((s.data.reverse.dropWhile (fun c => c == '.')).reverse)

/-- The list comprehension of line 46:
`[(r.preference, str(r.exchange).rstrip('.')) for r in mx_records]`. -/
def mxPairs (mx_records : List MxAnswer) : List (Nat × String) :=
  mx_records.map (fun r => (r.preference, pyRstripDot r.exchange))

/-- The comparison `key=lambda x: x[0]` of Python's stable `sorted`
(lines 45-48): ascending order on the preference component. -/
def mxKeyLe (a b : Nat × String) : Prop :=
  a.1 ≤ b.1

instance : DecidableRel mxKeyLe :=
  fun a b => inferInstanceAs (Decidable (a.1 ≤ b.1))

instance : IsTotal (Nat × String) mxKeyLe :=
  ⟨fun a b => Nat.le_total a.1 b.1⟩

instance : IsTrans (Nat × String) mxKeyLe :=
  ⟨fun _ _ _ => Nat.le_trans⟩

/-- `sorted([...], key=lambda x: x[0])` (lines 45-48): Python's `sorted` is a
stable ascending sort by the key; every stable sort computes the same
function, embedded here as a stable insertion sort on the preference
component. -/
def sortedMxPairs (mx_records : List MxAnswer) : List (Nat × String) :=
  (mxPairs mx_records).insertionSort mxKeyLe

/-- `EmailValidator.get_mx_records` (lines 35-56).  `dnsOutcome` is the result
of the module-level `dns.resolver.resolve(domain, 'MX')` call of line 43 —
note the source queries through the library's default resolver and never
consults `self.dns_resolver`.  Every `except` clause returns `[]` (the
generic one after printing a diagnostic); on success the sorted, stripped
host names are returned (`[host for _, host in mx_hosts]`, line 49). -/
def EmailValidator.get_mx_records (self : EmailValidator)
    (dnsOutcome : Except DnsError (List MxAnswer)) : List String :=
  match dnsOutcome with
  | .ok mx_records => (sortedMxPairs mx_records).map Prod.snd
  | .error .nxdomain => []
  | .error .noNameservers => []
  | .error .noAnswer => []
  | .error (.otherError _) => []

/-- Membership in the regex class `[a-zA-Z0-9._%+-]` (the local part of the
pattern on line 32).  `Char.isAlpha`/`Char.isDigit` are exactly the ASCII
ranges `a-zA-Z`/`0-9`, matching the literal ranges of the Python pattern. -/
def isLocalChar (c : Char) : Bool :=
  c.isAlpha || c.isDigit || c == '.' || c == '_' || c == '%' || c == '+' || c == '-'

/-- Membership in the regex class `[a-zA-Z0-9.-]` (the domain part of the
pattern on line 32). -/
def isDomainChar (c : Char) : Bool :=
  c.isAlpha || c.isDigit || c == '.' || c == '-'

/-- The sub-pattern `[a-zA-Z0-9.-]+\.[a-zA-Z]{2,}` matched against a whole
character list.  With backtracking, the list matches iff it splits as
`pre ++ '.' :: tld` with `pre` nonempty over the domain class and `tld` at
least two alphabetic characters; since `tld` may contain no `'.'`, the split
dot is necessarily the last dot, which this computes via the reversed list. -/
def domainMatch (dom : List Char) : Bool :=
  (dom.reverse.dropWhile (fun c => c != '.')).head? == some '.'
    && decide (2 ≤ (dom.reverse.takeWhile (fun c => c != '.')).length)
    && (dom.reverse.takeWhile (fun c => c != '.')).all Char.isAlpha
    && decide ((dom.reverse.dropWhile (fun c => c != '.')).tail ≠ [])
    && ((dom.reverse.dropWhile (fun c => c != '.')).tail).all isDomainChar

/-- The full pattern `[a-zA-Z0-9._%+-]+@[a-zA-Z0-9.-]+\.[a-zA-Z]{2,}` matched
against a whole character list.  `'@'` is not in the local class, so the
local part of any match is exactly the maximal local-class prefix, which must
be nonempty and be followed by `'@'` and a matching domain. -/
def reFullMatch (cs : List Char) : Bool :=
  decide (cs.takeWhile isLocalChar ≠ [])
    && ((cs.dropWhile isLocalChar).head? == some '@')
    && domainMatch (cs.dropWhile isLocalChar).tail

/-- `EmailValidator.validate_email_format` (lines 30-33):
`bool(re.match(r'^[a-zA-Z0-9._%+-]+@[a-zA-Z0-9.-]+\.[a-zA-Z]{2,}$', email))`.
`re.match` anchors at the start, and Python's `$` (outside MULTILINE) matches
at the end of the string or just before one trailing newline, so the pattern
also accepts a match followed by a single final `'\n'`. -/
def validate_email_format (email : String) : Bool :=
  reFullMatch email.data
    || (email.data.getLast? == some '\n' && reFullMatch email.data.dropLast)

/-- Modelled from the spec's wording of the format contract, independently of
the executable matcher: a character list belongs to the pattern's language
when, in its entirety, it is one or more characters from `[A-Za-z0-9._%+-]`,
then `'@'`, then one or more characters from `[A-Za-z0-9.-]`, then a literal
`'.'`, then two or more alphabetic characters.  Used as the comparison point
for the refinement claim about `validate_email_format`. -/
def SpecFormatList (cs : List Char) : Prop :=
  ∃ l a b : List Char,
    cs = l ++ '@' :: (a ++ '.' :: b)
    ∧ l ≠ [] ∧ (∀ c ∈ l, isLocalChar c = true)
    ∧ a ≠ [] ∧ (∀ c ∈ a, isDomainChar c = true)
    ∧ 2 ≤ b.length ∧ (∀ c ∈ b, c.isAlpha = true)

/-- The result dict built by `validate_email` (lines 97-105), with the
source's field and status strings kept verbatim.  The spec's status names map
as: `InvalidFormat` = "некорректный формат", `NoMxRecords` = "MX-записи
отсутствуют или некорректны", `MailboxConfirmed` = "домен валиден",
`MailboxRejected` = "домен валиден, но адрес не найден". -/
structure ValidationResult where
  email : String
  valid_format : Bool
  domain_exists : Bool
  mx_records : List String
  smtp_check : Bool
  status : String
  details : String
deriving DecidableEq, Repr

/-- The external world one validation run interacts with: the module-level
DNS resolver's answer per domain (line 43) and the SMTP conversation per
`(email, mx_host)` pair (lines 66-75). -/
structure Env where
  dns : String → Except DnsError (List MxAnswer)
  smtp : String → String → SmtpSession

/-- Python's `email.split('@')[1]` (line 114): the text between the first
`'@'` and the next `'@'` or the end of the string.  In `validate_email` the
call sits behind the format check, which guarantees at least one `'@'`
(otherwise Python would raise `IndexError`; that path is unreachable). -/
def pySplitAtSecond (email : String) : String :=
  String.mk
    ((email.data.dropWhile (fun c => c != '@')).tail.takeWhile (fun c => c != '@'))

/-- `EmailValidator.validate_email` (lines 90-139): format check with early
return, `domain = email.split('@')[1]`, MX lookup with early return on an
empty list, then the SMTP handshake against `mx_records[0]`. -/
def validate_email (self : EmailValidator) (env : Env) (email : String) :
    ValidationResult :=
  let result : ValidationResult :=
    { email := email, valid_format := false, domain_exists := false,
      mx_records := [], smtp_check := false, status := "", details := "" }
  if validate_email_format email = false then
    { result with
      status := "некорректный формат",
      details := "email не соответствует стандартному формату" }
  else
    let domain := pySplitAtSecond email
    let mx_records := self.get_mx_records (env.dns domain)
    if mx_records = [] then
      { result with
        valid_format := true,
        status := "MX-записи отсутствуют или некорректны",
        details := "домен " ++ domain ++ " не имеет MX-записей" }
    else
      let primary_mx := mx_records.headD ""
      let sv := smtp_verify self (env.smtp email primary_mx)
      { email := email, valid_format := true, domain_exists := true,
        mx_records := mx_records, smtp_check := sv.1,
        status :=
          if sv.1 then "домен валиден" else "домен валиден, но адрес не найден",
        details :=
          if sv.1 then "адрес подтверждён через " ++ primary_mx
          else sv.2 ++ " (проверено через " ++ primary_mx ++ ")" }

/-- The batch loop of `main` (lines 192-198): one `validate_email` call per
input line, results appended in input order. -/
def batch_run (self : EmailValidator) (env : Env) (emails : List String) :
    List ValidationResult :=
  emails.map (validate_email self env)

/-- The summary of `main` (lines 200-207): `valid_count` counts results with
`smtp_check`, `mx_valid_count` counts results with `domain_exists`, and the
"Невалидных" line prints `len(emails) - mx_valid_count`. -/
def summary_counts (emails : List String) (results : List ValidationResult) :
    Nat × Nat × Nat :=
  (results.countP (fun r => r.smtp_check),
   results.countP (fun r => r.domain_exists),
   emails.length - results.countP (fun r => r.domain_exists))

/-! ## Concrete fixtures used by counterexamples and witnesses -/

/-- A validator as built by `main` (line 189): `EmailValidator(timeout=10)`. -/
def valX : EmailValidator := EmailValidator.init 10

/-- A session whose RCPT TO completes with `(550, "user unknown")` and whose
every other command succeeds. -/
def sessRejectC1 : SmtpSession :=
  ⟨none, .ok (250, "greetings"), .ok (250, "sender ok"),
    .ok (550, "user unknown"), none⟩

/-- A session whose RCPT TO completes with code 250 but whose QUIT raises
`SMTPServerDisconnected`. -/
def sessAcceptQuitFailC1 : SmtpSession :=
  ⟨none, .ok (250, "greetings"), .ok (250, "sender ok"),
    .ok (250, "OK"), some .serverDisconnected⟩

/-- A fully successful session: RCPT TO answers 250 and QUIT succeeds. -/
def sessQuitOkC2 : SmtpSession :=
  ⟨none, .ok (250, "greetings"), .ok (250, "sender ok"), .ok (250, "OK"), none⟩

/-- The same conversation as `sessQuitOkC2` except that QUIT raises
`SMTPServerDisconnected`. -/
def sessQuitFailC2 : SmtpSession :=
  { sessQuitOkC2 with quitResult := some .serverDisconnected }

/-- A session whose HELO completes with the non-2xx code 554 and whose
MAIL FROM completes with the non-2xx code 530, after which RCPT TO answers
250 and QUIT succeeds. -/
def sessHeloRejC3 : SmtpSession :=
  ⟨none, .ok (554, "rejected"), .ok (530, "auth required"),
    .ok (250, "OK"), none⟩

/-- The spec's own example: MX records with preferences
`[(20, "b.mx"), (10, "a.mx")]`. -/
def recsC5 : List MxAnswer := [⟨20, "b.mx."⟩, ⟨10, "a.mx."⟩]

/-- A session in which every command succeeds and RCPT TO answers 250. -/
def sessAcceptX : SmtpSession :=
  ⟨none, .ok (250, "greetings"), .ok (250, "sender ok"), .ok (250, "OK"), none⟩

/-- An environment in which every domain resolves to one MX record and every
probe is accepted. -/
def envOkX : Env :=
  ⟨fun _ => .ok [⟨10, "mx.example.com."⟩], fun _ _ => sessAcceptX⟩

/-! ## The SMTP probe: claims C1, C2, C3 -/

/-- Claim C1 as stated is false: on a completed RCPT TO with a code other
than 250/251 the rejected result does not carry the server's message.  With
RCPT TO completed as `(550, "user unknown")` (and every command succeeding),
`smtp_verify` returns a rejection whose text does not contain the server's
message; moreover, with RCPT TO completed at code 250 but QUIT failing, the
returned verdict is not the accepted one. -/
theorem c1_rcpt_counterexample :
    sessRejectC1.rcptReply = Except.ok (550, "user unknown")
    ∧ (smtp_verify valX sessRejectC1).1 = false
    ∧ ¬ ("user unknown".data <:+: (smtp_verify valX sessRejectC1).2.data)
    ∧ sessAcceptQuitFailC1.rcptReply = Except.ok (250, "OK")
    ∧ (smtp_verify valX sessAcceptQuitFailC1).1 = false := by
  refine ⟨rfl, rfl, ?_, rfl, rfl⟩
  decide

/-- Claim C1, amended: for every probe in which connect, HELO, MAIL FROM and
RCPT TO complete and QUIT also succeeds, `smtp_verify` returns the accepted
verdict exactly when the RCPT code is 250 or 251, and for any other code a
rejected verdict whose message carries the numeric code — the server's own
message is discarded. -/
theorem c1_rcpt_verdict (self : EmailValidator) (s : SmtpSession)
    (code : Nat) (message : String) (hreply mreply : Nat × String)
    (hc : s.connectResult = none) (hh : s.heloReply = Except.ok hreply)
    (hm : s.mailReply = Except.ok mreply)
    (hr : s.rcptReply = Except.ok (code, message))
    (hq : s.quitResult = none) :
    smtp_verify self s =
      if code = 250 ∨ code = 251 then (true, "адрес существует")
      else (false, "адрес не найден (код " ++ toString code ++ ")") := by
  have hb : smtpBody s =
      if code = 250 ∨ code = 251 then Except.ok (true, "адрес существует")
      else Except.ok (false, "адрес не найден (код " ++ toString code ++ ")") := by
    unfold smtpBody
    rw [hc, hh, hm, hr, hq]
  unfold smtp_verify
  rw [hb]
  by_cases h : code = 250 ∨ code = 251 <;> simp [h]

/-- Witness for `c1_rcpt_verdict` at `sessRejectC1`. -/
theorem c1_rcpt_verdict_witness :
    smtp_verify valX sessRejectC1 = (false, "адрес не найден (код 550)") := by
  rw [c1_rcpt_verdict valX sessRejectC1 550 "user unknown" (250, "greetings")
    (250, "sender ok") rfl rfl rfl rfl rfl]
  rfl

/-- Claim C2 as stated is false: on two conversations identical up to the
QUIT step, both completing RCPT TO with code 250, the QUIT failure changes
the value `smtp_verify` returns — the captured verdict does not stand. -/
theorem c2_quit_counterexample :
    sessQuitFailC2 = { sessQuitOkC2 with quitResult := some .serverDisconnected }
    ∧ sessQuitOkC2.rcptReply = Except.ok (250, "OK")
    ∧ smtp_verify valX sessQuitOkC2 = (true, "адрес существует")
    ∧ smtp_verify valX sessQuitFailC2 = (false, "сервер разорвал соединение") :=
  ⟨rfl, rfl, rfl, rfl⟩

/-- Claim C2, amended: a QUIT failure never escapes `smtp_verify` (it is
caught by the `except` clauses), but it does change the result: because
`server.quit()` runs inside the `try` block before the code check, the RCPT
verdict is discarded and the exception's handler message is returned. -/
theorem c2_quit_failure_overrides (self : EmailValidator) (s : SmtpSession)
    (e : SmtpExc) (hreply mreply rreply : Nat × String)
    (hc : s.connectResult = none) (hh : s.heloReply = Except.ok hreply)
    (hm : s.mailReply = Except.ok mreply)
    (hr : s.rcptReply = Except.ok rreply)
    (hq : s.quitResult = some e) :
    smtp_verify self s = (false, smtpExcMessage e) := by
  unfold smtp_verify smtpBody
  rw [hc, hh, hm, hr, hq]

/-- Witness for `c2_quit_failure_overrides` at `sessQuitFailC2`. -/
theorem c2_quit_failure_overrides_witness :
    smtp_verify valX sessQuitFailC2 = (false, "сервер разорвал соединение") :=
  c2_quit_failure_overrides valX sessQuitFailC2 .serverDisconnected
    (250, "greetings") (250, "sender ok") (250, "OK") rfl rfl rfl rfl rfl

/-- Claim C3 as stated is false: with HELO completing at the non-2xx code 554
and MAIL FROM at the non-2xx code 530, the probe does not stop with a
protocol-error outcome — it proceeds to RCPT TO and returns the accepted
verdict. -/
theorem c3_helo_counterexample :
    sessHeloRejC3.heloReply = Except.ok (554, "rejected")
    ∧ sessHeloRejC3.mailReply = Except.ok (530, "auth required")
    ∧ smtp_verify valX sessHeloRejC3 = (true, "адрес существует") :=
  ⟨rfl, rfl, rfl⟩

/-- Claim C3, amended: the numeric response codes of HELO and MAIL FROM are
never inspected — whenever both commands complete, the probe's result is the
same whatever their codes, because `smtplib`'s `helo`/`mail` do not raise on
non-2xx replies and line 70-71 discard their return values. -/
theorem c3_helo_mail_codes_ignored (self : EmailValidator) (s : SmtpSession)
    (c₁ c₂ c₁' c₂' : Nat) (m₁ m₂ m₁' m₂' : String) :
    smtp_verify self
        { s with heloReply := Except.ok (c₁, m₁), mailReply := Except.ok (c₂, m₂) }
      = smtp_verify self
        { s with heloReply := Except.ok (c₁', m₁'), mailReply := Except.ok (c₂', m₂') } := by
  obtain ⟨co, he, ma, rc, qu⟩ := s
  cases co <;> rfl

/-! ## The MX resolver: claims C4, C6 -/

/-- Claim C4: `get_mx_records` maps every one of its caught failure modes —
NXDOMAIN, no-nameservers, no-answer, and any other exception — to the empty
list; together with totality of the embedding this is the source's
never-raises contract (lines 50-56 catch every `Exception`). -/
theorem c4_resolver_errors_empty (self : EmailValidator) (e : DnsError) :
    self.get_mx_records (Except.error e) = [] := by
  cases e <;> rfl

/-- Claim C6: `__init__` does configure an instance resolver with
`timeout = 5` and `lifetime = 5`, but the MX query of line 43 goes through
the module-level `dns.resolver.resolve`, never through `self.dns_resolver`,
so the result of `get_mx_records` is independent of the instance resolver
configuration — the configured budgets do not govern the query. -/
theorem c6_resolver_config_unused :
    (∀ t : Nat, (EmailValidator.init t).dns_resolver = { timeout := 5, lifetime := 5 })
    ∧ (∀ (v w : EmailValidator) (outcome : Except DnsError (List MxAnswer)),
        v.get_mx_records outcome = w.get_mx_records outcome) :=
  ⟨fun _ => rfl, fun _ _ _ => rfl⟩

/-! ## Sorting of MX records: claim C5 -/

lemma pyRstripDot_getLast? (s : String) : (pyRstripDot s).data.getLast? ≠ some '.' := by
  intro h
  have hdef : (pyRstripDot s).data
      = (s.data.reverse.dropWhile (fun c => c == '.')).reverse := rfl
  rw [hdef, List.getLast?_reverse] at h
  have hhd := List.head?_dropWhile_not (fun c => c == '.') s.data.reverse
  rw [h] at hhd
  simp at hhd

/-- Claim C5: on a successful resolution the returned hosts are the second
components of the stably sorted pair list: preferences ascend along the
sorted pairs; for each preference value the pairs with that key appear in
their original resolver order (filtering the sorted list by any key equals
filtering the unsorted one); and no returned host ends in a root-label
dot. -/
theorem c5_sorted_stable_stripped (self : EmailValidator) (records : List MxAnswer) :
    self.get_mx_records (Except.ok records) = (sortedMxPairs records).map Prod.snd
    ∧ ((sortedMxPairs records).map Prod.fst).Pairwise (· ≤ ·)
    ∧ (∀ p : Nat, (sortedMxPairs records).filter (fun x => x.1 == p)
        = (mxPairs records).filter (fun x => x.1 == p))
    ∧ (∀ host ∈ self.get_mx_records (Except.ok records),
        host.data.getLast? ≠ some '.') := by
  refine ⟨rfl, ?_, ?_, ?_⟩
  · have hp : (sortedMxPairs records).Pairwise mxKeyLe :=
      List.sorted_insertionSort mxKeyLe (mxPairs records)
    exact hp.map Prod.fst (fun a b hab => hab)
  · intro p
    have hmemkey : ∀ x ∈ (mxPairs records).filter (fun x => x.1 == p), x.1 = p := by
      intro x hx
      have := (List.mem_filter.mp hx).2
      simpa using this
    have hpw : ((mxPairs records).filter (fun x => x.1 == p)).Pairwise mxKeyLe := by
      refine List.pairwise_of_forall_mem_list ?_
      intro a ha b hb
      have h1 := hmemkey a ha
      have h2 := hmemkey b hb
      simp [mxKeyLe, h1, h2]
    have hstab : List.Sublist ((mxPairs records).filter (fun x => x.1 == p))
        (sortedMxPairs records) :=
      List.sublist_insertionSort hpw (List.filter_sublist _)
    have hself : ((mxPairs records).filter (fun x => x.1 == p)).filter (fun x => x.1 == p)
        = (mxPairs records).filter (fun x => x.1 == p) :=
      List.filter_eq_self.mpr (fun a ha => (List.mem_filter.mp ha).2)
    have hsub2 : List.Sublist ((mxPairs records).filter (fun x => x.1 == p))
        ((sortedMxPairs records).filter (fun x => x.1 == p)) := by
      have := hstab.filter (fun x => x.1 == p)
      rwa [hself] at this
    have hperm : List.Perm ((sortedMxPairs records).filter (fun x => x.1 == p))
        ((mxPairs records).filter (fun x => x.1 == p)) :=
      (List.perm_insertionSort mxKeyLe (mxPairs records)).filter _
    exact (hsub2.eq_of_length hperm.length_eq.symm).symm
  · intro host hmem
    have hmem' : host ∈ (sortedMxPairs records).map Prod.snd := hmem
    obtain ⟨pr, hpr, rfl⟩ := List.mem_map.mp hmem'
    have hpr2 : pr ∈ mxPairs records := (List.mem_insertionSort mxKeyLe).mp hpr
    obtain ⟨r, -, rfl⟩ := List.mem_map.mp hpr2
    exact pyRstripDot_getLast? r.exchange

/-- Witness for `c5_sorted_stable_stripped`: the spec's example resolves to
`["a.mx", "b.mx"]`, and the stability and stripped-dot parts of the theorem
are discharged at that input. -/
theorem c5_sorted_stable_stripped_witness :
    valX.get_mx_records (Except.ok recsC5) = ["a.mx", "b.mx"]
    ∧ (sortedMxPairs recsC5).filter (fun x => x.1 == 10)
        = (mxPairs recsC5).filter (fun x => x.1 == 10)
    ∧ ("a.mx" : String).data.getLast? ≠ some '.' := by
  refine ⟨rfl, (c5_sorted_stable_stripped valX recsC5).2.2.1 10,
    (c5_sorted_stable_stripped valX recsC5).2.2.2 "a.mx" ?_⟩
  decide

/-! ## The batch loop: claim C7 -/

/-- Claim C7: the batch loop of `main` yields exactly one result per input
address, in input order — the i-th result is `validate_email` of the i-th
address, so it depends only on that address, and the batch over an appended
list is the appended batches (no address can abort or alter the processing
of later ones; `validate_email` is total because `get_mx_records` and
`smtp_verify` catch every exception). -/
theorem c7_batch_isolation (self : EmailValidator) (env : Env) (emails : List String) :
    (batch_run self env emails).length = emails.length
    ∧ (∀ i : Nat, (batch_run self env emails)[i]?
        = (emails[i]?).map (validate_email self env))
    ∧ (∀ pre post : List String,
        batch_run self env (pre ++ post)
          = batch_run self env pre ++ batch_run self env post) :=
  ⟨List.length_map _ _, fun i => List.getElem?_map _ _ _,
    fun pre post => List.map_append _ _ _⟩

/-! ## Result invariants: claim C8 -/

lemma validate_email_invariants (self : EmailValidator) (env : Env) (email : String) :
    ((validate_email self env email).smtp_check = true
        → (validate_email self env email).domain_exists = true)
    ∧ ((validate_email self env email).domain_exists = true
        → (validate_email self env email).valid_format = true)
    ∧ ((validate_email self env email).mx_records ≠ []
        → (validate_email self env email).domain_exists = true)
    ∧ ((validate_email self env email).status = "некорректный формат"
        ∨ (validate_email self env email).status = "MX-записи отсутствуют или некорректны"
        ∨ (validate_email self env email).status = "домен валиден"
        ∨ (validate_email self env email).status = "домен валиден, но адрес не найден") := by
  unfold validate_email
  dsimp only
  split
  · simp
  · split
    · simp
    · refine ⟨fun _ => rfl, fun _ => rfl, fun _ => rfl, ?_⟩
      split
      · right; right; left; rfl
      · right; right; right; rfl

/-- Claim C8: every result of `validate_email` satisfies the invariant chain
(`smtp_check → domain_exists`, `domain_exists → valid_format`, `mx_records`
empty unless `domain_exists`), and its status is always one of the four
strings corresponding to InvalidFormat, NoMxRecords, MailboxConfirmed and
MailboxRejected — never the spec's fifth state DomainValidMailboxUnknown,
which corresponds to no string the source ever assigns. -/
theorem c8_result_invariants (self : EmailValidator) (env : Env) (email : String) :
    ((validate_email self env email).smtp_check = true
        → (validate_email self env email).domain_exists = true)
    ∧ ((validate_email self env email).domain_exists = true
        → (validate_email self env email).valid_format = true)
    ∧ ((validate_email self env email).mx_records ≠ []
        → (validate_email self env email).domain_exists = true)
    ∧ ((validate_email self env email).status = "некорректный формат"
        ∨ (validate_email self env email).status = "MX-записи отсутствуют или некорректны"
        ∨ (validate_email self env email).status = "домен валиден"
        ∨ (validate_email self env email).status = "домен валиден, но адрес не найден") :=
  validate_email_invariants self env email

/-- Witness for `c8_result_invariants` on a fully successful validation. -/
theorem c8_result_invariants_witness :
    (validate_email valX envOkX "user@example.com").domain_exists = true
    ∧ (validate_email valX envOkX "user@example.com").valid_format = true :=
  ⟨(c8_result_invariants valX envOkX "user@example.com").1 rfl,
   (c8_result_invariants valX envOkX "user@example.com").2.1
     ((c8_result_invariants valX envOkX "user@example.com").2.2.1 (by decide))⟩

/-! ## Summary counts: claim C10 -/

lemma countP_bool_not (p : α → Bool) (l : List α) :
    l.countP (fun a => !p a) = l.length - l.countP p := by
  induction l with
  | nil => rfl
  | cons x xs ih =>
    have hle : xs.countP p ≤ xs.length := List.countP_le_length _
    cases hx : p x <;> simp [List.countP_cons, hx, ih] <;> omega

/-- Claim C10 as stated is false: in a batch whose single address is fully
confirmed, the second summary count (`mx_valid_count`, printed as
"С валидным доменом") is 1, while the number of domain-valid-but-unconfirmed
results is 0. -/
theorem c10_counts_counterexample :
    (summary_counts ["user@example.com"]
        (batch_run valX envOkX ["user@example.com"])).2.1 = 1
    ∧ (batch_run valX envOkX ["user@example.com"]).countP
        (fun r => r.domain_exists && !r.smtp_check) = 0 :=
  ⟨rfl, rfl⟩

/-- Claim C10, amended: `confirmed` counts the results with `smtp_check`; the
second count is the number of results with `domain_exists` (domain-valid,
whether or not confirmed — not domain-valid-but-unconfirmed); and `invalid`
is the input length minus that, which equals the number of results with
`domain_exists` false and — by the `smtp_check → domain_exists` invariant —
also the number of results that are neither confirmed nor
domain-valid-but-unconfirmed. -/
theorem c10_summary_counts (self : EmailValidator) (env : Env) (emails : List String) :
    summary_counts emails (batch_run self env emails)
      = ((batch_run self env emails).countP (fun r => r.smtp_check),
         (batch_run self env emails).countP (fun r => r.domain_exists),
         (batch_run self env emails).countP (fun r => !r.domain_exists))
    ∧ (batch_run self env emails).countP (fun r => !r.domain_exists)
      = (batch_run self env emails).countP
          (fun r => !r.smtp_check && !(r.domain_exists && !r.smtp_check)) := by
  constructor
  · unfold summary_counts
    have h3 : (batch_run self env emails).countP (fun r => !r.domain_exists)
        = emails.length - (batch_run self env emails).countP (fun r => r.domain_exists) := by
      rw [countP_bool_not]
      rw [show (batch_run self env emails).length = emails.length from
        List.length_map _ _]
    rw [h3]
  · refine List.countP_congr ?_
    intro r hr
    obtain ⟨e, -, rfl⟩ := List.mem_map.mp hr
    have hinv := (validate_email_invariants self env e).1
    cases hs : (validate_email self env e).smtp_check
    · cases hd : (validate_email self env e).domain_exists <;> simp [hs, hd]
    · have hd := hinv hs
      simp [hs, hd]

/-! ## The format check: claim C9 -/

lemma span_split (p : Char → Bool) (xs : List Char) (y : Char) (r : List Char)
    (hxs : ∀ c ∈ xs, p c = true) (hy : p y = false) :
    (xs ++ y :: r).takeWhile p = xs ∧ (xs ++ y :: r).dropWhile p = y :: r := by
  induction xs with
  | nil => simp [List.takeWhile_cons, List.dropWhile_cons, hy]
  | cons x xs ih =>
    have hx : p x = true := hxs x (List.mem_cons_self x xs)
    have ih' := ih (fun c hc => hxs c (List.mem_cons_of_mem x hc))
    simp [List.takeWhile_cons, List.dropWhile_cons, hx, ih'.1, ih'.2]

lemma alpha_ne_dot {c : Char} (h : c.isAlpha = true) : (c != '.') = true := by
  rw [bne_iff_ne]
  rintro rfl
  exact absurd h (by decide)

lemma domainMatch_eq_true_iff (dom : List Char) :
    domainMatch dom = true
      ↔ ∃ a b : List Char,
          dom = a ++ '.' :: b
          ∧ a ≠ [] ∧ (∀ c ∈ a, isDomainChar c = true)
          ∧ 2 ≤ b.length ∧ (∀ c ∈ b, c.isAlpha = true) := by
  constructor
  · intro h
    unfold domainMatch at h
    simp only [Bool.and_eq_true, beq_iff_eq, decide_eq_true_eq,
      List.all_eq_true] at h
    obtain ⟨⟨⟨⟨hhd, hlen⟩, halpha⟩, hne⟩, hdc⟩ := h
    have hsp : dom.reverse
        = dom.reverse.takeWhile (fun c => c != '.')
          ++ dom.reverse.dropWhile (fun c => c != '.') :=
      (List.takeWhile_append_dropWhile _ _).symm
    cases hr : dom.reverse.dropWhile (fun c => c != '.') with
    | nil =>
      rw [hr] at hhd
      cases hhd
    | cons c rest =>
      rw [hr] at hhd hne hdc hsp
      have hc : c = '.' := by simpa using hhd
      subst hc
      simp only [List.tail_cons] at hne hdc
      refine ⟨rest.reverse, (dom.reverse.takeWhile (fun c => c != '.')).reverse,
        ?_, ?_, ?_, ?_, ?_⟩
      · have := congrArg List.reverse hsp
        simpa [List.reverse_append] using this
      · simpa using hne
      · exact fun c hc => hdc c (List.mem_reverse.mp hc)
      · simpa using hlen
      · exact fun c hc => halpha c (List.mem_reverse.mp hc)
  · rintro ⟨a, b, rfl, ha, hac, hb2, hba⟩
    have hbd : ∀ c ∈ b.reverse, (fun c => c != '.') c = true :=
      fun c hc => alpha_ne_dot (hba c (List.mem_reverse.mp hc))
    have hsp := span_split (fun c => c != '.') b.reverse '.' a.reverse hbd
      (by decide)
    have hrev : (a ++ '.' :: b).reverse = b.reverse ++ '.' :: a.reverse := by
      simp
    unfold domainMatch
    rw [hrev, hsp.1, hsp.2]
    simp only [List.head?_cons, List.tail_cons, Bool.and_eq_true, beq_iff_eq,
      decide_eq_true_eq, List.all_eq_true, List.length_reverse, ne_eq,
      List.reverse_eq_nil_iff]
    exact ⟨⟨⟨⟨trivial, hb2⟩, fun c hc => hba c (List.mem_reverse.mp hc)⟩, ha⟩,
      fun c hc => hac c (List.mem_reverse.mp hc)⟩

lemma reFullMatch_iff_spec (cs : List Char) :
    reFullMatch cs = true ↔ SpecFormatList cs := by
  constructor
  · intro h
    unfold reFullMatch at h
    simp only [Bool.and_eq_true, decide_eq_true_eq, beq_iff_eq] at h
    obtain ⟨⟨hne, hhd⟩, hdm⟩ := h
    cases hw : cs.dropWhile isLocalChar with
    | nil =>
      rw [hw] at hhd
      cases hhd
    | cons c rest =>
      rw [hw] at hhd hdm
      have hc : c = '@' := by simpa using hhd
      subst hc
      simp only [List.tail_cons] at hdm
      obtain ⟨a, b, hdec, ha, hac, hb2, hba⟩ :=
        (domainMatch_eq_true_iff rest).mp hdm
      refine ⟨cs.takeWhile isLocalChar, a, b, ?_, hne, ?_, ha, hac, hb2, hba⟩
      · conv_lhs => rw [← List.takeWhile_append_dropWhile isLocalChar cs]
        rw [hw, hdec]
      · exact fun c hc => List.mem_takeWhile_imp hc
  · rintro ⟨l, a, b, rfl, hl, hlc, ha, hac, hb2, hba⟩
    have hsp := span_split isLocalChar l '@' (a ++ '.' :: b) hlc (by decide)
    unfold reFullMatch
    rw [hsp.1, hsp.2]
    simp only [List.head?_cons, List.tail_cons, Bool.and_eq_true, beq_iff_eq,
      decide_eq_true_eq]
    exact ⟨⟨hl, trivial⟩, domainMatch_eq_true_iff (a ++ '.' :: b)
      |>.mpr ⟨a, b, rfl, ha, hac, hb2, hba⟩⟩

/-- Claim C9 as stated is false at the concrete input `"user@example.com\n"`:
the string carries trailing whitespace and does not, in its entirety, consist
of the pattern's segments, yet `validate_email_format` returns true — Python's
`$` also matches just before one trailing newline. -/
theorem c9_trailing_whitespace_counterexample :
    ¬ (validate_email_format "user@example.com\n" = true
        ↔ SpecFormatList ("user@example.com\n").data) := by
  intro hiff
  have h2 := hiff.mp rfl
  obtain ⟨l, a, b, heq, -, -, -, -, hb2, hba⟩ := h2
  have hbne : b ≠ [] := by
    intro hb
    rw [hb] at hb2
    simp at hb2
  have hlast : ("user@example.com\n").data.getLast? = some '\n' := rfl
  rw [heq, show l ++ '@' :: (a ++ '.' :: b) = (l ++ '@' :: (a ++ ['.'])) ++ b
    by simp, List.getLast?_append] at hlast
  cases hgb : b.getLast? with
  | none => exact hbne (List.getLast?_eq_none_iff.mp hgb)
  | some c =>
    rw [hgb] at hlast
    simp only [Option.or_some, Option.some.injEq] at hlast
    have hcb : c ∈ b := List.mem_of_getLast?_eq_some hgb
    have halpha := hba c hcb
    rw [hlast] at halpha
    exact absurd halpha (by decide)

/-- Claim C9, amended: `validate_email_format` returns true exactly for the
strings of the spec's pattern language, except that a single trailing newline
after a matching string is also accepted (Python's `$` matches at the end of
the string or just before a final `'\n'`); in particular the match is
anchored at the start, requires exactly one `'@'`, and admits no other
surrounding whitespace. -/
theorem c9_format_language (email : String) :
    validate_email_format email = true
      ↔ (SpecFormatList email.data
          ∨ (email.data.getLast? = some '\n' ∧ SpecFormatList email.data.dropLast)) := by
  unfold validate_email_format
  simp only [Bool.or_eq_true, Bool.and_eq_true, beq_iff_eq, reFullMatch_iff_spec]
